import Mathlib

/-
Verification of the Maroba-API authentication/session core.

The repository holds two revisions of the auth service and of the protect
middleware; where they differ, each definition's doc comment names the exact
source file and lines it embeds (src/services/auth.service.js or the unnamed
copy part_001, src/middleware/auth.middleware.js or part_011).

External collaborators are idealized as in the spec's interface section:
 - the record store is a pair of in-memory lists (users, refresh-token rows);
 - the key/value store is a list of (key, value, ttl) entries plus a
   connected flag (only the disconnected short-circuits of CacheService are
   behavioural; redis command failures are out of scope);
 - bcrypt and sha256 are abstract deterministic functions supplied as
   parameters (`Hashers`): bcrypt.compare(c, h) holds iff h = bcryptHash c;
 - a signed JWT is represented by its content: payload, signing secret and
   the expiresIn value passed to jwt.sign; jwt.verify succeeds iff the
   verifying secret equals the signing secret (all tokens under study are
   within their natural lifetime);
 - random values (crypto.randomBytes, crypto.randomUUID, generated row ids)
   are explicit parameters.
-/

deriving instance DecidableEq for Except

/-- Errors: `app s m` is `new AppError(s, m)` from error.middleware.js; `internal m` is a plain thrown `Error` (surfaced as a 500 by the error middleware). -/
inductive SErr where
  | app (status : Nat) (msg : String)
  | internal (msg : String)
deriving DecidableEq, Repr

/-- Payload of a signed token: `{userId, role}` plus an optional `jti` claim (absent claims are `none`, read back as JS `undefined`). -/
structure JwtPayload where
  userId : String
  role : String
  jti : Option String
deriving DecidableEq, Repr

/-- A signed token, represented by its content: payload, the secret it was signed with, and the `expiresIn` value passed to `jwt.sign`. -/
structure Token where
  payload : JwtPayload
  secret : String
  expiresIn : Nat
deriving DecidableEq, Repr

/-- `jwt.sign(payload, secret, { expiresIn })`. -/
def sign (p : JwtPayload) (secret : String) (expiresIn : Nat) : Token :=
  ⟨p, secret, expiresIn⟩

/-- `jwt.verify(token, secret)`: succeeds with the payload iff the secret matches the signing secret. -/
def verify (t : Token) (secret : String) : Except SErr JwtPayload :=
  if t.secret = secret then .ok t.payload
  else .error (.internal ("JsonWebTokenError: invalid signature"))

/-- The process environment variables read by auth.service.js (`none` = unset). -/
structure Env where
  jwtExpiresInVar : Option String
  refreshTokenExpiryVar : Option String
  accessSecretVar : String
  refreshSecretVar : String
deriving DecidableEq, Repr

/-- The module-level configuration of auth.service.js. -/
structure Config where
  jwtExpiresIn : String
  refreshTokenExpiry : String
  accessSecret : String
  refreshSecret : String
deriving DecidableEq, Repr

/-- Module initialisation of auth.service.js (both copies, lines 11-12):
`JWT_EXPIRES_IN = process.env.JWT_EXPIRES_IN || '1h'` and
`REFRESH_TOKEN_EXPIRY = process.env.REFRESH_TOKEN_EXPIRY || '7d'`.
No expiry string is parsed at load time, so initialisation never fails. -/
def moduleInit (e : Env) : Except SErr Config :=
  .ok ⟨e.jwtExpiresInVar.getD ("1h"), e.refreshTokenExpiryVar.getD ("7d"),
       e.accessSecretVar, e.refreshSecretVar⟩

/-- Millisecond value of a unit suffix (auth.service.js `units` table). -/
def unitMillis : Char → Nat
  | 's' => 1000
  | 'm' => 60 * 1000
  | 'h' => 60 * 60 * 1000
  | 'd' => 24 * 60 * 60 * 1000
  | _ => 0

/-- Decimal digits to a natural number (the effect of `parseInt(match[1], 10)`). -/
def digitsToNat (cs : List Char) : Nat :=
  cs.foldl (fun a c => a * 10 + (c.toNat - 48)) 0

/-- Membership in the `[smhd]` character class of the expiry regex. -/
def isUnitChar (c : Char) : Bool :=
  c = 's' || c = 'm' || c = 'h' || c = 'd'

/-- `parseExpiration` (auth.service.js lines 14-31): match the string against
`^(\d+)([smhd])$`; on a match return integer-prefix times the unit's
millisecond value, otherwise throw `Invalid expiration format`. -/
def parseExpiration (s : String) : Except SErr Nat :=
  match s.toList.getLast? with
  | none => .error (.internal ("Invalid expiration format: " ++ s))
  | some u =>
    let ds := s.toList.dropLast
    if !ds.isEmpty && ds.all Char.isDigit && isUnitChar u then
      .ok (digitsToNat ds * unitMillis u)
    else
      .error (.internal ("Invalid expiration format: " ++ s))

/-- A row of the `User` model (schema.prisma): only the fields the auth core touches. -/
structure User where
  id : String
  email : String
  username : String
  password : String
  role : String
  isVerified : Bool
  verificationToken : Option String
  verificationTokenExpires : Option Int
  resetPasswordToken : Option String
  resetPasswordExpire : Option Int
  failedLoginAttempts : Nat
  accountLockedUntil : Option Int
  googleId : Option String
  isGoogleUser : Bool
  firstName : Option String
  lastName : Option String
deriving DecidableEq, Repr

/-- A row of the `RefreshToken` model (schema.prisma): token string, owner, expiry. -/
structure RefreshTokenRecord where
  token : Token
  userId : String
  expiresAt : Int
deriving DecidableEq, Repr

/-- The record store: the two tables the auth core reads and writes. -/
structure Db where
  users : List User
  refreshTokens : List RefreshTokenRecord
deriving DecidableEq, Repr

/-- One redis key: value plus optional TTL in seconds (`SET key value { EX: ttl }`). -/
structure CacheEntry where
  key : String
  value : String
  ttl : Option Nat
deriving DecidableEq, Repr

/-- The key/value store: connection flag (`redisClient.isOpen`) and entries. -/
structure Cache where
  connected : Bool
  entries : List CacheEntry
deriving DecidableEq, Repr

/-- `CacheService.set` (src/services/cache.service.js lines 20-30): if the client
is not connected, return silently without writing; otherwise store the value,
overwriting any previous entry for the key. -/
def CacheService.set (c : Cache) (k v : String) (ttl : Option Nat) : Cache :=
  if c.connected then
    { c with entries := ⟨k, v, ttl⟩ :: c.entries.filter (fun e => e.key != k) }
  else c

/-- `CacheService.exists` (src/services/cache.service.js lines 54-64): if the
client is not connected, return false; otherwise report whether the key is
present. -/
def CacheService.existsKey (c : Cache) (k : String) : Bool :=
  if c.connected then c.entries.any (fun e => e.key == k) else false

/-- `CacheService.delete`: if connected, remove the key. -/
def CacheService.delete (c : Cache) (k : String) : Cache :=
  if c.connected then { c with entries := c.entries.filter (fun e => e.key != k) }
  else c

/-- Abstract one-way functions: `bcrypt.hash(pw, 12)` and
`crypto.createHash('sha256').update(x).digest('hex')`, idealized as injective
deterministic functions; `bcrypt.compare(c, h)` holds iff `h = bcryptHash c`. -/
structure Hashers where
  bcryptHash : String → String
  sha256 : String → String

/-- `prisma.user.update({ where: { id }, data })`: apply `f` to every user whose id matches. -/
def updateUser (db : Db) (uid : String) (f : User → User) : Db :=
  { db with users := db.users.map (fun u => if u.id == uid then f u else u) }

/-- `prisma.user.findUnique({ where: { id } })`. -/
def findUserById (db : Db) (uid : String) : Option User :=
  db.users.find? (fun u => u.id == uid)

/-- `prisma.user.findFirst({ where: { OR: [{email: identifier}, {username: identifier}] } })`. -/
def findLoginUser (db : Db) (identifier : String) : Option User :=
  db.users.find? (fun u => u.email == identifier || u.username == identifier)

/-- `prisma.user.findUnique({ where: { email } })`. -/
def findUserByEmail (db : Db) (email : String) : Option User :=
  db.users.find? (fun u => u.email == email)

/-- Whether an Except is a success. -/
def isOkE {α : Type} : Except SErr α → Bool
  | .ok _ => true
  | .error _ => false

/-- The HTTP status of an error result, if any. -/
def errStatusOf {α : Type} : Except SErr α → Option Nat
  | .ok _ => none
  | .error (.app s _) => some s
  | .error (.internal _) => none

/-- The redis key `blacklist:${decoded.jti}`; an absent claim prints as the JS string `undefined`. -/
def blacklistKey (p : JwtPayload) : String :=
  "blacklist:" ++ p.jti.getD ("undefined")

/-- `AuthService.generateTokens` (part_001 lines 370-408): mint a fresh `jti`
(here a parameter), sign an access token with payload `{userId, role}` under
`JWT_ACCESS_SECRET` and a refresh token with payload `{userId, role, jti}`
under `JWT_REFRESH_SECRET`, each with `expiresIn` from `parseExpiration`, and
persist a RefreshToken row with the refresh token string, owner id and
computed expiry. The copy at src/services/auth.service.js lines 332-365
differs in one point: it also puts `jti` into the access token payload. -/
def generateTokens (cfg : Config) (db : Db) (now : Int) (jti : String)
    (userId role : String) : Except SErr ((Token × Token) × Db) :=
  match parseExpiration cfg.jwtExpiresIn with
  | .error e => .error e
  | .ok accessMs =>
    match parseExpiration cfg.refreshTokenExpiry with
    | .error e => .error e
    | .ok refreshMs =>
      let accessToken := sign ⟨userId, role, none⟩ cfg.accessSecret accessMs
      let refreshTok := sign ⟨userId, role, some jti⟩ cfg.refreshSecret refreshMs
      .ok ((accessToken, refreshTok),
        { db with refreshTokens :=
            ⟨refreshTok, userId, now + (refreshMs : Int)⟩ :: db.refreshTokens })

/-- `AuthService.logout` (part_001 lines 183-197): verify the refresh token
against `JWT_REFRESH_SECRET`; on failure throw 401 Invalid refresh token; on
success write `blacklist:${jti} = 'true'` with a hard-coded TTL of
`60 * 60 * 24 * 7` seconds. The copy at src/services/auth.service.js lines
173-181 verifies and logs but stores no entry. -/
def logout (cfg : Config) (cache : Cache) (t : Token) : Except SErr Cache :=
  match verify t cfg.refreshSecret with
  | .ok decoded =>
      .ok (CacheService.set cache (blacklistKey decoded) ("true") (some (60 * 60 * 24 * 7)))
  | .error _ => .error (.app 401 ("Invalid refresh token"))

/-- `AuthService.refreshToken` (part_001 lines 200-216): verify the refresh
token against `JWT_REFRESH_SECRET` (failure → 401 Invalid refresh token), then
reject with 401 Token revoked if `blacklist:${jti}` exists, else issue a new
pair via generateTokens for the decoded userId and role. The copy at
src/services/auth.service.js lines 184-194 has no blacklist check. -/
def refreshTokenOp (cfg : Config) (cache : Cache) (db : Db) (now : Int)
    (newJti : String) (t : Token) : Except SErr ((Token × Token) × Db) :=
  match verify t cfg.refreshSecret with
  | .error _ => .error (.app 401 ("Invalid refresh token"))
  | .ok decoded =>
    if CacheService.existsKey cache (blacklistKey decoded) then
      .error (.app 401 ("Token revoked"))
    else
      generateTokens cfg db now newJti decoded.userId decoded.role

/-- `AuthService.calculateLockDuration` (auth.service.js lines 417-425):
24 hours from now at 5 or more attempts, 15 minutes from now at 3 or more,
otherwise no lock. -/
def calculateLockDuration (now : Int) (attempts : Nat) : Option Int :=
  if attempts ≥ 5 then some (now + 24 * 60 * 60 * 1000)
  else if attempts ≥ 3 then some (now + 15 * 60 * 1000)
  else none

/-- `AuthService.handleFailedLoginAttempt` (auth.service.js lines 402-415):
store `currentAttempts + 1` and the recomputed lock on the user row.
`currentAttempts` is the value read at lookup time, not the current row. -/
def handleFailedLoginAttempt (db : Db) (now : Int) (userId : String)
    (currentAttempts : Nat) : Db :=
  updateUser db userId (fun u =>
    { u with failedLoginAttempts := currentAttempts + 1,
             accountLockedUntil := calculateLockDuration now (currentAttempts + 1) })

/-- `AuthService.resetFailedAttempts` (auth.service.js lines 428-436). -/
def resetFailedAttempts (db : Db) (userId : String) : Db :=
  updateUser db userId (fun u =>
    { u with failedLoginAttempts := 0, accountLockedUntil := none })

/-- `user.accountLockedUntil?.getTime() > Date.now()`: a null lock compares as false. -/
def lockedActive (u : User) (now : Int) : Bool :=
  match u.accountLockedUntil with
  | some t => now < t
  | none => false

/-- Ceiling minutes remaining, `Math.ceil((t - now) / 1000 / 60)` for `t > now`. -/
def minutesLeft (now t : Int) : Int :=
  (t - now + 59999) / 60000

/-- `AuthService.validateLoginAttempt` (auth.service.js lines 377-400) for a
resolved user: locked account → 403 with minutes remaining, unverified →
403 verify email first, else pass. The no-user branch (401 Invalid
credentials) is handled at the lookup site in `login`. -/
def validateResolvedUser (u : User) (now : Int) : Option SErr :=
  if lockedActive u now then
    some (.app 403 ("Account temporarily locked. Try again in "
      ++ toString (minutesLeft now (u.accountLockedUntil.getD 0)) ++ " minutes"))
  else if u.isVerified then none
  else some (.app 403 ("Please verify your email first"))

/-- `AuthService.verifyPassword` (auth.service.js lines 368-374). -/
def verifyPassword (H : Hashers) (hashedPassword candidate : String) : Option SErr :=
  if hashedPassword == H.bcryptHash candidate then none
  else some (.app 401 ("Invalid credentials"))

/-- `AuthService.login` (auth.service.js lines 81-119, identical in part_001):
reject missing credentials; look the user up by email or username; run the
step-3 checks, the password check, reset counters and issue tokens; any
throw from inside the try block lands in the catch, which calls
`handleFailedLoginAttempt` whenever a user object was resolved — including
for the step-3 locked/unverified failures and for a failure after the
counter reset. Returns the response and the final record-store state. -/
def login (cfg : Config) (H : Hashers) (db : Db) (now : Int) (newJti : String)
    (identifier password : String) : Except SErr (Token × Token) × Db :=
  if identifier = "" ∨ password = "" then
    (.error (.app 400 ("Both identifier and password are required")), db)
  else
    match findLoginUser db identifier with
    | none => (.error (.app 401 ("Invalid credentials")), db)
    | some u =>
      match validateResolvedUser u now with
      | some e => (.error e, handleFailedLoginAttempt db now u.id u.failedLoginAttempts)
      | none =>
        match verifyPassword H u.password password with
        | some e => (.error e, handleFailedLoginAttempt db now u.id u.failedLoginAttempts)
        | none =>
          let db1 := resetFailedAttempts db u.id
          match generateTokens cfg db1 now newJti u.id u.role with
          | .ok (toks, db2) => (.ok toks, db2)
          | .error e => (.error e, handleFailedLoginAttempt db1 now u.id u.failedLoginAttempts)

/-- A message handed to the notification collaborator: recipient and the raw token it carries. -/
structure SentMessage where
  recipient : String
  rawToken : String
deriving DecidableEq, Repr

/-- `AuthService.forgotPassword` (auth.service.js lines 197-220): look the
account up by exact email; if none, return silently with no write and no
message; else store the sha256 of the raw token with a 15-minute expiry and
dispatch a reset message carrying the raw token. `rawToken` stands for
`crypto.randomBytes(32).toString('hex')`. -/
def forgotPassword (H : Hashers) (db : Db) (now : Int) (rawToken email : String) :
    Db × Option SentMessage :=
  match findUserByEmail db email with
  | none => (db, none)
  | some u =>
    (updateUser db u.id (fun v =>
      { v with resetPasswordToken := some (H.sha256 rawToken),
               resetPasswordExpire := some (now + 15 * 60 * 1000) }),
     some ⟨email, rawToken⟩)

/-- The forgot-password controller (auth.controller.js lines 44-52): run the
service, then answer 200 with a fixed message; the service never throws, so
the response does not depend on whether the email was registered. -/
def forgotPasswordController (H : Hashers) (db : Db) (now : Int)
    (rawToken email : String) : (Nat × String) × Db × Option SentMessage :=
  let r := forgotPassword H db now rawToken email
  ((200, "If that email address is registered, a password reset email has been sent."),
   r.1, r.2)

/-- The reset-token lookup predicate of `resetPassword`: matching stored hash and unexpired window. -/
def resetMatch (hashed : String) (now : Int) (u : User) : Bool :=
  u.resetPasswordToken == some hashed
    && (match u.resetPasswordExpire with | some t => now < t | none => false)

/-- `AuthService.resetPassword` (src/services/auth.service.js lines 223-257):
reject an empty token; hash it and find a user with matching stored hash and
unexpired window (else 400); then, in one transaction, store the bcrypt hash
of the new password, clear the reset-token fields, and delete every
RefreshToken row owned by the account. part_001 additionally deletes the
`user:{id}:tokens` cache key, which no other code reads. -/
def resetPassword (H : Hashers) (db : Db) (now : Int) (rawToken newPassword : String) :
    Except SErr Unit × Db :=
  if rawToken = "" then (.error (.app 400 ("Invalid reset token")), db)
  else
    match db.users.find? (resetMatch (H.sha256 rawToken) now) with
    | none => (.error (.app 400 ("Invalid or expired token")), db)
    | some u =>
      let db1 := updateUser db u.id (fun v =>
        { v with password := H.bcryptHash newPassword,
                 resetPasswordToken := none, resetPasswordExpire := none })
      (.ok (), { db1 with refreshTokens := db1.refreshTokens.filter (fun r => r.userId != u.id) })

/-- `AuthService.updatePassword` (src/services/auth.service.js lines 260-284):
404 if the id resolves no user, 401 on current-password mismatch, else the
same transactional password update plus deletion of all RefreshToken rows. -/
def updatePassword (H : Hashers) (db : Db) (userId currentPassword newPassword : String) :
    Except SErr Unit × Db :=
  match findUserById db userId with
  | none => (.error (.app 404 ("User not found")), db)
  | some u =>
    match verifyPassword H u.password currentPassword with
    | some e => (.error e, db)
    | none =>
      let db1 := updateUser db userId (fun v => { v with password := H.bcryptHash newPassword })
      (.ok (), { db1 with refreshTokens := db1.refreshTokens.filter (fun r => r.userId != userId) })

/-- The verification-token lookup predicate of `verifyEmail`: matching stored hash and unexpired window. -/
def verifMatch (hashed : String) (now : Int) (u : User) : Bool :=
  u.verificationToken == some hashed
    && (match u.verificationTokenExpires with | some t => now < t | none => false)

/-- The prisma update applied by `verifyEmail` on a match. -/
def verifyEmailUpdate (u : User) : User :=
  { u with isVerified := true, verificationToken := none,
           verificationTokenExpires := none, failedLoginAttempts := 0,
           accountLockedUntil := none }

/-- `AuthService.verifyEmail` (src/services/auth.service.js lines 122-170,
identical in part_001): reject an empty token; hash it and find a user with
matching stored verification-token hash and future expiry (else 400 invalid
or expired); if that user is already verified, 400 Email already verified;
else set verified, clear the token fields and lockout state, and issue a
token pair. Returns the response and the final record-store state. -/
def verifyEmail (cfg : Config) (H : Hashers) (db : Db) (now : Int) (newJti : String)
    (token : String) : Except SErr (User × (Token × Token)) × Db :=
  if token = "" then (.error (.app 400 ("Verification token is required")), db)
  else
    match db.users.find? (verifMatch (H.sha256 token) now) with
    | none => (.error (.app 400 ("Invalid or expired verification token")), db)
    | some u =>
      if u.isVerified then (.error (.app 400 ("Email already verified")), db)
      else
        let db1 := updateUser db u.id verifyEmailUpdate
        match generateTokens cfg db1 now newJti u.id u.role with
        | .ok (toks, db2) => (.ok (verifyEmailUpdate u, toks), db2)
        | .error e => (.error e, db1)

/-- A verified external profile as passed by the Google strategy. -/
structure GoogleProfile where
  id : String
  displayName : String
  emails : List String
  givenName : Option String
  familyName : Option String
deriving DecidableEq, Repr

/-- In both copies of the service, the create branch of `handleGoogleLogin`
calls `hashPassword`, a name that is neither defined in the module nor
imported (the module imports bcryptjs but no `hashPassword`); under ESM name
resolution evaluating it raises a ReferenceError. -/
def hashPassword : Option (String → String) := none

/-- `email.split('@')[0]`: the part of the email before the first `@`. -/
def localPart (email : String) : String :=
  ⟨email.toList.takeWhile (fun c => c != '@')⟩

/-- The prisma update of the linking branch of `handleGoogleLogin`. -/
def googleLinkUpdate (googleId : String) (u : User) : User :=
  { u with googleId := some googleId, isGoogleUser := true, isVerified := true }

/-- `AuthService.handleGoogleLogin` (src/services/auth.service.js lines
286-326, identical in part_001 lines 325-365): take the profile's first
email; if an account with that email exists and is not yet a Google user,
update only googleId, isGoogleUser and isVerified; if it exists and is
already linked, change nothing; if none exists, derive the username from the
email's local part and attempt to hash a random password with the undefined
`hashPassword`, which throws before any row is created. `randomHex` stands
for `crypto.randomBytes(16).toString('hex')`, `newId` for the generated row
id. -/
def handleGoogleLogin (db : Db) (profile : GoogleProfile) (randomHex newId : String) :
    Except SErr (User × Db) :=
  match profile.emails with
  | [] => .error (.internal ("TypeError: cannot read emails[0] of empty profile"))
  | email :: _ =>
    match findUserByEmail db email with
    | some u =>
      if u.isGoogleUser then .ok (u, db)
      else .ok (googleLinkUpdate profile.id u, updateUser db u.id (googleLinkUpdate profile.id))
    | none =>
      let username := localPart email
      match hashPassword with
      | none => .error (.internal ("ReferenceError: hashPassword is not defined"))
      | some hp =>
        let newUser : User :=
          { id := newId, email := email, username := username,
            password := hp randomHex, role := "USER", isVerified := true,
            verificationToken := none, verificationTokenExpires := none,
            resetPasswordToken := none, resetPasswordExpire := none,
            failedLoginAttempts := 0, accountLockedUntil := none,
            googleId := some profile.id, isGoogleUser := true,
            firstName := some (profile.givenName.getD ("")),
            lastName := some (profile.familyName.getD ("")) }
        .ok (newUser, { db with users := db.users ++ [newUser] })

/-- `req.user` as attached by the protect middleware. -/
structure AuthedUser where
  id : String
  role : String
deriving DecidableEq, Repr

/-- `protect` (part_011 lines 6-31): 401 when the bearer token is missing or
fails verification against `JWT_ACCESS_SECRET`; 401 Token has been revoked
when `blacklist:${jti}` exists; else attach `{id, role}`. The copy at
src/middleware/auth.middleware.js has no blacklist check. -/
def protect (cfg : Config) (cache : Cache) (tok : Option Token) : Except SErr AuthedUser :=
  match tok with
  | none => .error (.app 401 ("Not authenticated, token missing"))
  | some t =>
    match verify t cfg.accessSecret with
    | .error _ => .error (.app 401 ("Not authenticated, token invalid"))
    | .ok decoded =>
      if CacheService.existsKey cache (blacklistKey decoded) then
        .error (.app 401 ("Token has been revoked"))
      else .ok ⟨decoded.userId, decoded.role⟩

/-- find? commutes with a map that leaves the predicate invariant. -/
theorem find?_map_of_pred {α : Type} (g : α → α) (p : α → Bool) :
    ∀ (l : List α) (u : α), (∀ v, p (g v) = p v) → l.find? p = some u →
      (l.map g).find? p = some (g u) := by
  intro l
  induction l with
  | nil => intro u _ h; simp [List.find?] at h
  | cons a t ih =>
    intro u hp h
    rw [List.map_cons]
    by_cases hpa : p a = true
    · rw [List.find?_cons_of_pos _ ((hp a).trans hpa)]
      rw [List.find?_cons_of_pos _ hpa] at h
      cases h; rfl
    · rw [List.find?_cons_of_neg _ (by rw [hp a]; exact hpa)]
      rw [List.find?_cons_of_neg _ hpa] at h
      exact ih u hp h

/-- A per-id user update moves through a find? whose predicate it preserves. -/
theorem find?_updateUser (db : Db) (uid : String) (f : User → User) (p : User → Bool)
    (u : User) (hp : ∀ v, p (if v.id == uid then f v else v) = p v)
    (h : db.users.find? p = some u) :
    (updateUser db uid f).users.find? p = some (if u.id == uid then f u else u) := by
  exact find?_map_of_pred (fun v => if v.id == uid then f v else v) p db.users u hp h

/-- Updating a user by id is visible through findUserById when f preserves the id. -/
theorem findUserById_updateUser (db : Db) (uid : String) (f : User → User) (u : User)
    (hf : ∀ v, (f v).id = v.id) (h : findUserById db uid = some u) :
    findUserById (updateUser db uid f) uid = some (f u) := by
  have h' : db.users.find? (fun v => v.id == uid) = some u := h
  have hpu' := List.find?_some h'
  have hpu : (u.id == uid) = true := hpu'
  have hmain := find?_updateUser db uid f (fun v => v.id == uid) u
    (by
      intro v
      by_cases hv : (v.id == uid) = true
      · simp only [hv, if_true, hf]
      · have hv' : (v.id == uid) = false := by simpa using hv
        simp [hv'])
    h'
  rw [hpu] at hmain
  simp only [if_true] at hmain
  exact hmain

/-- updateUser does not touch the refresh-token table. -/
theorem updateUser_refreshTokens (db : Db) (uid : String) (f : User → User) :
    (updateUser db uid f).refreshTokens = db.refreshTokens := rfl

/-- Concrete hash functions standing for bcrypt and sha256 in closed instances. -/
def testHashers : Hashers := ⟨fun s => "bc|" ++ s, fun s => "sha|" ++ s⟩

/-- The default configuration: unset expiry variables, distinct secrets. -/
def defaultCfg : Config := ⟨"1h", "7d", "access-secret", "refresh-secret"⟩

/-- A connected, empty key/value store. -/
def emptyCache : Cache := ⟨true, []⟩

/-- A disconnected key/value store. -/
def offCache : Cache := ⟨false, []⟩

/-- An empty record store. -/
def emptyDb : Db := ⟨[], []⟩

/-- A verified, unlocked account used in closed instances. -/
def baseUser : User :=
  { id := "u1", email := "a@x.com", username := "alice", password := "bc|pw",
    role := "USER", isVerified := true, verificationToken := none,
    verificationTokenExpires := none, resetPasswordToken := none,
    resetPasswordExpire := none, failedLoginAttempts := 0,
    accountLockedUntil := none, googleId := none, isGoogleUser := false,
    firstName := none, lastName := none }

/-- A configuration whose refresh-token lifetime is one hour instead of the default 7 days. -/
def c1Cfg : Config := ⟨"1h", "1h", "as", "rs"⟩

/-- A refresh token signed with c1Cfg's refresh secret, jti j9. -/
def c1Tok : Token := sign ⟨"u9", "USER", some ("j9")⟩ ("rs") 3600000

/-- C1 counterexample: with the refresh-token lifetime configured to 1 hour
(3600000 ms), logout still writes the revocation entry with the hard-coded
TTL of 604800 seconds (7 days), so the entry's TTL is not equal to the
refresh-token lifetime. -/
theorem logout_ttl_hardcoded_cex :
    verify c1Tok c1Cfg.refreshSecret = .ok ⟨"u9", "USER", some ("j9")⟩
    ∧ logout c1Cfg emptyCache c1Tok
        = .ok ⟨true, [⟨"blacklist:j9", "true", some 604800⟩]⟩
    ∧ parseExpiration c1Cfg.refreshTokenExpiry = .ok 3600000
    ∧ 604800 * 1000 ≠ 3600000 := by decide

/-- An account holding a pending (hashed) reset token that expires at t=1000000. -/
def c2User : User :=
  { baseUser with resetPasswordToken := some ("sha|reset-raw"),
                  resetPasswordExpire := some 1000000 }

/-- A previously issued refresh token of c2User, with its persisted RefreshToken row. -/
def c2Tok : Token := sign ⟨"u1", "USER", some ("jold")⟩ ("refresh-secret") 604800000

/-- The record store before the password reset: c2User plus c2Tok's row. -/
def c2Db : Db := ⟨[c2User], [⟨c2Tok, "u1", 604800000⟩]⟩

/-- C2 (code_bug): resetPassword succeeds and deletes every RefreshToken row
of the account in the same transaction, yet an immediately following
refreshToken call with the previously issued refresh token still succeeds,
because refreshToken checks only the signature and the jti blacklist and
never consults the RefreshToken table. -/
theorem reset_keeps_old_refresh_usable :
    (resetPassword testHashers c2Db 0 ("reset-raw") ("newpw")).1 = .ok ()
    ∧ (resetPassword testHashers c2Db 0 ("reset-raw") ("newpw")).2.refreshTokens = []
    ∧ isOkE (refreshTokenOp defaultCfg emptyCache
        (resetPassword testHashers c2Db 0 ("reset-raw") ("newpw")).2
        0 ("jnew") c2Tok) = true := by decide

/-- The account of the C4 counterexample: verified, correct password available, locked until t=2000. -/
def c4User : User := { baseUser with accountLockedUntil := some 2000 }

/-- The record store of the C4 counterexample. -/
def c4Db : Db := ⟨[c4User], []⟩

/-- C4 counterexample: a login attempt at t=1000 on a locked, verified
account with the correct password fails at step 3 with 403 (account locked),
and the failed-attempt counter is nevertheless incremented from 0 to 1 (and
the lock recomputed from the new counter, here cleared), contradicting the
claim that a step-3 failure does not touch the counter. -/
theorem step3_failure_increments_cex :
    errStatusOf (login defaultCfg testHashers c4Db 1000 ("j") ("alice") ("pw")).1 = some 403
    ∧ findUserById (login defaultCfg testHashers c4Db 1000 ("j") ("alice") ("pw")).2 ("u1")
        = some { c4User with failedLoginAttempts := 1, accountLockedUntil := none } := by
  decide

/-- An environment with a malformed JWT_EXPIRES_IN. -/
def badEnv : Env := ⟨some ("1x"), none, "as", "rs"⟩

/-- The configuration that module initialisation derives from badEnv. -/
def badCfg : Config := ⟨"1x", "7d", "as", "rs"⟩

/-- C8 (corrected): parseExpiration maps every string made of a nonempty
digit sequence followed by one unit letter of s, m, h, d to the integer
prefix times the unit's millisecond value, and succeeds only on strings of
that shape; but a malformed configured expiry string is not a fatal startup
error: module initialisation always succeeds and the Invalid expiration
format error is thrown inside generateTokens, i.e. on each token-issuing
request. -/
theorem parseExpiration_grammar_and_request_failure
    (ds : List Char) (c : Char) (s : String) (n : Nat) (e : Env) (cfg : Config)
    (m : String) (db : Db) (now : Int) (jti uid role : String)
    (hds : ds ≠ []) (hdig : ds.all Char.isDigit = true) (hc : isUnitChar c = true)
    (hok : parseExpiration s = .ok n)
    (hbad : parseExpiration cfg.jwtExpiresIn = .error (.internal m)) :
    parseExpiration ⟨ds ++ [c]⟩ = .ok (digitsToNat ds * unitMillis c)
    ∧ (∃ ds' c', s.toList = ds' ++ [c'] ∧ ds' ≠ []
        ∧ ds'.all Char.isDigit = true ∧ isUnitChar c' = true
        ∧ n = digitsToNat ds' * unitMillis c')
    ∧ isOkE (moduleInit e) = true
    ∧ generateTokens cfg db now jti uid role = .error (.internal m) := by
  refine ⟨?_, ?_, rfl, ?_⟩
  · have hlist : (String.mk (ds ++ [c])).toList = ds ++ [c] := rfl
    have hne : ds.isEmpty = false := by
      cases ds with
      | nil => exact absurd rfl hds
      | cons a t => rfl
    unfold parseExpiration
    rw [hlist, List.getLast?_concat, List.dropLast_concat]
    simp [hne, hdig, hc]
  · unfold parseExpiration at hok
    cases hl : s.toList.getLast? with
    | none =>
      rw [hl] at hok
      exact Except.noConfusion hok
    | some c' =>
      simp only [hl] at hok
      by_cases hcond : (!s.toList.dropLast.isEmpty
          && s.toList.dropLast.all Char.isDigit && isUnitChar c') = true
      · rw [if_pos hcond] at hok
        have hc3 : s.toList.dropLast.isEmpty = false
            ∧ s.toList.dropLast.all Char.isDigit = true
            ∧ isUnitChar c' = true := by
          simp only [Bool.and_eq_true, Bool.not_eq_true'] at hcond
          exact ⟨hcond.1.1, hcond.1.2, hcond.2⟩
        refine ⟨s.toList.dropLast, c', ?_, ?_, hc3.2.1, hc3.2.2, ?_⟩
        · exact (List.dropLast_append_getLast? c' (Option.mem_def.mpr hl)).symm
        · intro hnil
          have h1 := hc3.1
          rw [hnil] at h1
          exact absurd h1 (by simp)
        · injection hok with h
          exact h.symm
      · rw [if_neg hcond] at hok
        exact Except.noConfusion hok
  · unfold generateTokens
    simp only [hbad]

theorem parseExpiration_grammar_and_request_failure_witness :
    ((['7'] : List Char) ≠ []
      ∧ (['7'] : List Char).all Char.isDigit = true
      ∧ isUnitChar 'd' = true
      ∧ parseExpiration ("7d") = .ok 604800000
      ∧ parseExpiration badCfg.jwtExpiresIn
          = .error (.internal ("Invalid expiration format: 1x")))
    ∧ (parseExpiration ⟨['7'] ++ ['d']⟩ = .ok (digitsToNat ['7'] * unitMillis 'd')
      ∧ (∃ ds' c', ("7d" : String).toList = ds' ++ [c'] ∧ ds' ≠ []
          ∧ ds'.all Char.isDigit = true ∧ isUnitChar c' = true
          ∧ 604800000 = digitsToNat ds' * unitMillis c')
      ∧ isOkE (moduleInit badEnv) = true
      ∧ generateTokens badCfg emptyDb 0 ("j") ("u1") ("USER")
          = .error (.internal ("Invalid expiration format: 1x"))) :=
  ⟨⟨by decide, by decide, by decide, by decide, by decide⟩,
   parseExpiration_grammar_and_request_failure ['7'] 'd' ("7d") 604800000 badEnv badCfg
     ("Invalid expiration format: 1x") emptyDb 0 ("j") ("u1") ("USER")
     (by decide) (by decide) (by decide) (by decide) (by decide)⟩

/-- C9 (confirmed): when the key/value store is not connected, set writes
nothing and existsKey answers false, so revocation fails open: logout of a
verifying refresh token reports success while the store is left unchanged
(no revocation entry), an immediately following refreshToken behaves exactly
as if the token were not revoked and succeeds, and the protect middleware
accepts an access token whose session was logged out. -/
theorem revocation_fails_open
    (cfg : Config) (cache : Cache) (db : Db) (now : Int)
    (k v newJti : String) (ttl : Option Nat) (t atk : Token)
    (p q : JwtPayload) (a r : Nat)
    (hdisc : cache.connected = false)
    (hv : verify t cfg.refreshSecret = .ok p)
    (hat : verify atk cfg.accessSecret = .ok q)
    (hpa : parseExpiration cfg.jwtExpiresIn = .ok a)
    (hpr : parseExpiration cfg.refreshTokenExpiry = .ok r) :
    CacheService.set cache k v ttl = cache
    ∧ CacheService.existsKey cache k = false
    ∧ logout cfg cache t = .ok cache
    ∧ refreshTokenOp cfg cache db now newJti t
        = generateTokens cfg db now newJti p.userId p.role
    ∧ isOkE (refreshTokenOp cfg cache db now newJti t) = true
    ∧ protect cfg cache (some atk) = .ok ⟨q.userId, q.role⟩ := by
  have hset : ∀ k' v' ttl', CacheService.set cache k' v' ttl' = cache := by
    intro k' v' ttl'
    simp [CacheService.set, hdisc]
  have hex : ∀ k', CacheService.existsKey cache k' = false := by
    intro k'
    simp [CacheService.existsKey, hdisc]
  refine ⟨hset k v ttl, hex k, ?_, ?_, ?_, ?_⟩
  · simp [logout, hv, hset]
  · simp [refreshTokenOp, hv, hex]
  · simp [refreshTokenOp, hv, hex]
    simp [generateTokens, hpa, hpr, isOkE]
  · simp [protect, hat, hex]

/-- The refresh token of the C9 witness instance. -/
def c9RefTok : Token := sign ⟨"u1", "USER", some ("j1")⟩ ("refresh-secret") 604800000

/-- The access token of the C9 witness instance. -/
def c9AccTok : Token := sign ⟨"u1", "USER", none⟩ ("access-secret") 3600000

theorem revocation_fails_open_witness :
    (offCache.connected = false
      ∧ verify c9RefTok defaultCfg.refreshSecret = .ok ⟨"u1", "USER", some ("j1")⟩
      ∧ verify c9AccTok defaultCfg.accessSecret = .ok ⟨"u1", "USER", none⟩
      ∧ parseExpiration defaultCfg.jwtExpiresIn = .ok 3600000
      ∧ parseExpiration defaultCfg.refreshTokenExpiry = .ok 604800000)
    ∧ (CacheService.set offCache ("k") ("v") (some 10) = offCache
      ∧ CacheService.existsKey offCache ("k") = false
      ∧ logout defaultCfg offCache c9RefTok = .ok offCache
      ∧ refreshTokenOp defaultCfg offCache emptyDb 0 ("j2") c9RefTok
          = generateTokens defaultCfg emptyDb 0 ("j2")
              (JwtPayload.mk ("u1") ("USER") (some ("j1"))).userId
              (JwtPayload.mk ("u1") ("USER") (some ("j1"))).role
      ∧ isOkE (refreshTokenOp defaultCfg offCache emptyDb 0 ("j2") c9RefTok) = true
      ∧ protect defaultCfg offCache (some c9AccTok)
          = .ok ⟨(JwtPayload.mk ("u1") ("USER") none).userId,
                 (JwtPayload.mk ("u1") ("USER") none).role⟩) :=
  ⟨⟨rfl, by decide, by decide, by decide, by decide⟩,
   revocation_fails_open defaultCfg offCache emptyDb 0 ("k") ("v") ("j2") (some 10)
     c9RefTok c9AccTok ⟨"u1", "USER", some ("j1")⟩ ⟨"u1", "USER", none⟩
     3600000 604800000 rfl (by decide) (by decide) (by decide) (by decide)⟩

/-- C10 (confirmed): linking an existing, not-yet-linked account through
handleGoogleLogin updates only googleId, isGoogleUser and isVerified,
leaving the stored pending verification-token hash and its expiry in place,
so a later verifyEmail call with the account's still-unexpired raw
verification token finds the now-verified account and fails with 400 Email
already verified rather than invalid/expired. -/
theorem google_link_then_verify_conflict
    (cfg : Config) (H : Hashers) (db : Db) (now : Int)
    (newJti randomHex newId raw email : String) (rest : List String)
    (profile : GoogleProfile) (u : User)
    (hemail : profile.emails = email :: rest)
    (hfindEmail : findUserByEmail db email = some u)
    (hnl : u.isGoogleUser = false)
    (hverif : db.users.find? (verifMatch (H.sha256 raw) now) = some u)
    (hraw : raw ≠ "") :
    handleGoogleLogin db profile randomHex newId
      = .ok (googleLinkUpdate profile.id u,
             updateUser db u.id (googleLinkUpdate profile.id))
    ∧ (googleLinkUpdate profile.id u).verificationToken = u.verificationToken
    ∧ (googleLinkUpdate profile.id u).verificationTokenExpires
        = u.verificationTokenExpires
    ∧ (googleLinkUpdate profile.id u).isVerified = true
    ∧ (verifyEmail cfg H (updateUser db u.id (googleLinkUpdate profile.id))
        now newJti raw).1
        = .error (.app 400 ("Email already verified")) := by
  refine ⟨?_, rfl, rfl, rfl, ?_⟩
  · simp [handleGoogleLogin, hemail, hfindEmail, hnl, googleLinkUpdate]
  · have hfind' := find?_updateUser db u.id (googleLinkUpdate profile.id)
      (verifMatch (H.sha256 raw) now) u
      (by
        intro w
        by_cases hw : (w.id == u.id) = true
        · simp only [hw, if_true]
          rfl
        · have hw' : (w.id == u.id) = false := by simpa using hw
          simp [hw'])
      hverif
    have hself : (u.id == u.id) = true := by simp
    rw [hself] at hfind'
    simp only [if_true] at hfind'
    unfold verifyEmail
    rw [if_neg hraw]
    simp only [hfind']
    rfl

/-- The unverified account of the C10 witness: pending verification token, not yet linked. -/
def c10User : User :=
  { baseUser with isVerified := false,
                  verificationToken := some ("sha|vtok"),
                  verificationTokenExpires := some 99999 }

/-- The single-account store of the C10 witness. -/
def c10Db : Db := ⟨[c10User], []⟩

/-- The Google profile of the C10 witness, sharing c10User's email. -/
def c10Profile : GoogleProfile := ⟨"gid-7", "Alice", ["a@x.com"], none, none⟩

theorem google_link_then_verify_conflict_witness :
    (c10Profile.emails = ("a@x.com") :: []
      ∧ findUserByEmail c10Db ("a@x.com") = some c10User
      ∧ c10User.isGoogleUser = false
      ∧ c10Db.users.find? (verifMatch (testHashers.sha256 ("vtok")) 0) = some c10User
      ∧ ("vtok" : String) ≠ "")
    ∧ (handleGoogleLogin c10Db c10Profile ("rnd") ("nid")
        = .ok (googleLinkUpdate ("gid-7") c10User,
               updateUser c10Db c10User.id (googleLinkUpdate ("gid-7")))
      ∧ (googleLinkUpdate ("gid-7") c10User).verificationToken = c10User.verificationToken
      ∧ (googleLinkUpdate ("gid-7") c10User).verificationTokenExpires
          = c10User.verificationTokenExpires
      ∧ (googleLinkUpdate ("gid-7") c10User).isVerified = true
      ∧ (verifyEmail defaultCfg testHashers
          (updateUser c10Db c10User.id (googleLinkUpdate ("gid-7"))) 0 ("j") ("vtok")).1
          = .error (.app 400 ("Email already verified"))) :=
  ⟨⟨rfl, by decide, rfl, by decide, by decide⟩,
   google_link_then_verify_conflict defaultCfg testHashers c10Db 0 ("j") ("rnd") ("nid")
     ("vtok") ("a@x.com") [] c10Profile c10User rfl (by decide) rfl (by decide) (by decide)⟩

/-- A verified Google profile whose email matches no stored account. -/
def c5Profile : GoogleProfile :=
  ⟨"gid-1", "New User", ["newuser@x.com"], some ("New"), some ("User")⟩

/-- C5 (code_bug): for a profile with no account under its email,
handleGoogleLogin reaches the create branch and throws, because the branch
calls the undefined identifier hashPassword; no account is created and no
user is returned for token issuance. -/
theorem googleLogin_create_undefined_hashPassword :
    handleGoogleLogin emptyDb c5Profile ("aabbccdd") ("nid-1")
      = .error (.internal ("ReferenceError: hashPassword is not defined")) := by decide

/-- On any login failure in which an account object was resolved, the stored
counter becomes the looked-up snapshot plus one and the lock is recomputed
from the new counter. -/
theorem login_fail_updates
    (cfg : Config) (H : Hashers) (db : Db) (now : Int)
    (newJti identifier password : String) (u : User)
    (hid : identifier ≠ "") (hpw : password ≠ "")
    (hu : findLoginUser db identifier = some u)
    (hfind : findUserById db u.id = some u)
    (hfail : isOkE (login cfg H db now newJti identifier password).1 = false) :
    findUserById (login cfg H db now newJti identifier password).2 u.id
      = some { u with failedLoginAttempts := u.failedLoginAttempts + 1,
                      accountLockedUntil :=
                        calculateLockDuration now (u.failedLoginAttempts + 1) } := by
  have hne : ¬ (identifier = "" ∨ password = "") := by
    rintro (h | h)
    · exact hid h
    · exact hpw h
  have hupd :
      findUserById (handleFailedLoginAttempt db now u.id u.failedLoginAttempts) u.id
        = some { u with failedLoginAttempts := u.failedLoginAttempts + 1,
                        accountLockedUntil :=
                          calculateLockDuration now (u.failedLoginAttempts + 1) } :=
    findUserById_updateUser db u.id _ u (fun _ => rfl) hfind
  have hres : findUserById (resetFailedAttempts db u.id) u.id
      = some { u with failedLoginAttempts := 0, accountLockedUntil := none } :=
    findUserById_updateUser db u.id _ u (fun _ => rfl) hfind
  have hupd2 :
      findUserById
        (handleFailedLoginAttempt (resetFailedAttempts db u.id) now u.id u.failedLoginAttempts)
        u.id
        = some { u with failedLoginAttempts := u.failedLoginAttempts + 1,
                        accountLockedUntil :=
                          calculateLockDuration now (u.failedLoginAttempts + 1) } :=
    findUserById_updateUser (resetFailedAttempts db u.id) u.id
      (fun v => { v with failedLoginAttempts := u.failedLoginAttempts + 1,
                         accountLockedUntil :=
                           calculateLockDuration now (u.failedLoginAttempts + 1) })
      { u with failedLoginAttempts := 0, accountLockedUntil := none }
      (fun _ => rfl) hres
  unfold login at hfail ⊢
  rw [if_neg hne] at hfail ⊢
  simp only [hu] at hfail ⊢
  cases hval : validateResolvedUser u now with
  | some e =>
    simp only [hval]
    exact hupd
  | none =>
    simp only [hval] at hfail ⊢
    cases hvp : verifyPassword H u.password password with
    | some e =>
      simp only [hvp]
      exact hupd
    | none =>
      simp only [hvp] at hfail ⊢
      unfold generateTokens at hfail ⊢
      cases ha : parseExpiration cfg.jwtExpiresIn with
      | error e =>
        simp only [ha]
        exact hupd2
      | ok a =>
        simp only [ha] at hfail ⊢
        cases hr : parseExpiration cfg.refreshTokenExpiry with
        | error e =>
          simp only [hr]
          exact hupd2
        | ok r =>
          simp only [hr] at hfail
          simp [isOkE] at hfail

/-- On login success, the stored counter is zero and the lock cleared. -/
theorem login_success_resets
    (cfg : Config) (H : Hashers) (db : Db) (now : Int)
    (newJti identifier password : String) (u : User)
    (hid : identifier ≠ "") (hpw : password ≠ "")
    (hu : findLoginUser db identifier = some u)
    (hfind : findUserById db u.id = some u)
    (hok : isOkE (login cfg H db now newJti identifier password).1 = true) :
    findUserById (login cfg H db now newJti identifier password).2 u.id
      = some { u with failedLoginAttempts := 0, accountLockedUntil := none } := by
  have hne : ¬ (identifier = "" ∨ password = "") := by
    rintro (h | h)
    · exact hid h
    · exact hpw h
  have hres : findUserById (resetFailedAttempts db u.id) u.id
      = some { u with failedLoginAttempts := 0, accountLockedUntil := none } :=
    findUserById_updateUser db u.id _ u (fun _ => rfl) hfind
  unfold login at hok ⊢
  rw [if_neg hne] at hok ⊢
  simp only [hu] at hok ⊢
  cases hval : validateResolvedUser u now with
  | some e =>
    simp only [hval] at hok
    simp [isOkE] at hok
  | none =>
    simp only [hval] at hok ⊢
    cases hvp : verifyPassword H u.password password with
    | some e =>
      simp only [hvp] at hok
      simp [isOkE] at hok
    | none =>
      simp only [hvp] at hok ⊢
      unfold generateTokens at hok ⊢
      cases ha : parseExpiration cfg.jwtExpiresIn with
      | error e =>
        simp only [ha] at hok
        simp [isOkE] at hok
      | ok a =>
        simp only [ha] at hok ⊢
        cases hr : parseExpiration cfg.refreshTokenExpiry with
        | error e =>
          simp only [hr] at hok
          simp [isOkE] at hok
        | ok r =>
          simp only [hr]
          exact hres

/-- A login with an identifier that resolves no account mutates nothing. -/
theorem login_unknown_frame
    (cfg : Config) (H : Hashers) (db : Db) (now : Int)
    (newJti identifier password : String)
    (hu : findLoginUser db identifier = none) :
    (login cfg H db now newJti identifier password).2 = db := by
  unfold login
  by_cases hc : identifier = "" ∨ password = ""
  · rw [if_pos hc]
  · rw [if_neg hc, hu]

/-- C3 (confirmed): for an account resolved by a login attempt, a failed
login stores its previous failed-attempt counter plus one, with
accountLockedUntil set to now plus 24 hours when the new counter reaches 5,
to now plus 15 minutes when it reaches 3 but not 5, and to null otherwise;
a successful login stores counter 0 and a null lock. -/
theorem login_lockout_policy
    (cfg : Config) (H : Hashers) (db : Db) (now : Int)
    (newJti identifier password : String) (u : User)
    (hid : identifier ≠ "") (hpw : password ≠ "")
    (hu : findLoginUser db identifier = some u)
    (hfind : findUserById db u.id = some u) :
    (isOkE (login cfg H db now newJti identifier password).1 = false →
      findUserById (login cfg H db now newJti identifier password).2 u.id
        = some { u with
            failedLoginAttempts := u.failedLoginAttempts + 1,
            accountLockedUntil :=
              if u.failedLoginAttempts + 1 ≥ 5 then some (now + 24 * 60 * 60 * 1000)
              else if u.failedLoginAttempts + 1 ≥ 3 then some (now + 15 * 60 * 1000)
              else none })
    ∧ (isOkE (login cfg H db now newJti identifier password).1 = true →
      findUserById (login cfg H db now newJti identifier password).2 u.id
        = some { u with failedLoginAttempts := 0, accountLockedUntil := none }) := by
  constructor
  · intro hfail
    have := login_fail_updates cfg H db now newJti identifier password u
      hid hpw hu hfind hfail
    simpa [calculateLockDuration] using this
  · intro hok
    exact login_success_resets cfg H db now newJti identifier password u
      hid hpw hu hfind hok

/-- The single-account store of the C3 witness. -/
def c3wDb : Db := ⟨[baseUser], []⟩

theorem login_lockout_policy_witness :
    (("alice" : String) ≠ ""
      ∧ ("wrong" : String) ≠ ""
      ∧ findLoginUser c3wDb ("alice") = some baseUser
      ∧ findUserById c3wDb baseUser.id = some baseUser)
    ∧ ((isOkE (login defaultCfg testHashers c3wDb 5 ("j") ("alice") ("wrong")).1 = false →
        findUserById (login defaultCfg testHashers c3wDb 5 ("j") ("alice") ("wrong")).2 baseUser.id
          = some { baseUser with
              failedLoginAttempts := baseUser.failedLoginAttempts + 1,
              accountLockedUntil :=
                if baseUser.failedLoginAttempts + 1 ≥ 5 then some (5 + 24 * 60 * 60 * 1000)
                else if baseUser.failedLoginAttempts + 1 ≥ 3 then some (5 + 15 * 60 * 1000)
                else none })
      ∧ (isOkE (login defaultCfg testHashers c3wDb 5 ("j") ("alice") ("wrong")).1 = true →
        findUserById (login defaultCfg testHashers c3wDb 5 ("j") ("alice") ("wrong")).2 baseUser.id
          = some { baseUser with failedLoginAttempts := 0, accountLockedUntil := none })) :=
  ⟨⟨by decide, by decide, by decide, by decide⟩,
   login_lockout_policy defaultCfg testHashers c3wDb 5 ("j") ("alice") ("wrong") baseUser
     (by decide) (by decide) (by decide) (by decide)⟩

/-- C4 (corrected): the failed-attempt counter and lockout are updated on
every login failure in which an account object was resolved — including
locked-account and unverified failures at step 3 — while a login whose
identifier resolves no account mutates no record. -/
theorem login_update_frame
    (cfg : Config) (H : Hashers) (db : Db) (now : Int)
    (newJti identifier password : String) (u : User)
    (hid : identifier ≠ "") (hpw : password ≠ "")
    (hfind : findUserById db u.id = some u) :
    (findLoginUser db identifier = none →
      (login cfg H db now newJti identifier password).2 = db)
    ∧ (findLoginUser db identifier = some u →
      isOkE (login cfg H db now newJti identifier password).1 = false →
      findUserById (login cfg H db now newJti identifier password).2 u.id
        = some { u with
            failedLoginAttempts := u.failedLoginAttempts + 1,
            accountLockedUntil :=
              calculateLockDuration now (u.failedLoginAttempts + 1) }) := by
  constructor
  · intro hnone
    exact login_unknown_frame cfg H db now newJti identifier password hnone
  · intro hu hfail
    exact login_fail_updates cfg H db now newJti identifier password u
      hid hpw hu hfind hfail

/-- The locked-but-unverified account of the C4 witness instance. -/
def c4wUser : User := { baseUser with isVerified := false }

/-- The single-account store of the C4 witness. -/
def c4wDb : Db := ⟨[c4wUser], []⟩

theorem login_update_frame_witness :
    (("alice" : String) ≠ ""
      ∧ ("pw" : String) ≠ ""
      ∧ findUserById c4wDb c4wUser.id = some c4wUser)
    ∧ ((findLoginUser c4wDb ("alice") = none →
        (login defaultCfg testHashers c4wDb 0 ("j") ("alice") ("pw")).2 = c4wDb)
      ∧ (findLoginUser c4wDb ("alice") = some c4wUser →
        isOkE (login defaultCfg testHashers c4wDb 0 ("j") ("alice") ("pw")).1 = false →
        findUserById (login defaultCfg testHashers c4wDb 0 ("j") ("alice") ("pw")).2 c4wUser.id
          = some { c4wUser with
              failedLoginAttempts := c4wUser.failedLoginAttempts + 1,
              accountLockedUntil :=
                calculateLockDuration 0 (c4wUser.failedLoginAttempts + 1) })) :=
  ⟨⟨by decide, by decide, by decide⟩,
   login_update_frame defaultCfg testHashers c4wDb 0 ("j") ("alice") ("pw") c4wUser
     (by decide) (by decide) (by decide)⟩

/-- Setting a key on a connected store makes it exist. -/
theorem existsKey_set_self (c : Cache) (k v : String) (ttl : Option Nat)
    (hconn : c.connected = true) :
    CacheService.existsKey (CacheService.set c k v ttl) k = true := by
  simp [CacheService.set, CacheService.existsKey, hconn]

/-- C1 (corrected): for a connected key/value store and any refresh token
whose signature verifies against the refresh secret, logout writes the
revocation entry blacklist:jti with the hard-coded TTL of 604800 seconds
(7 days — equal to the refresh-token lifetime only under the default 7d
configuration), and an immediately following refreshToken call on the same
token finds the entry and fails with 401 Token revoked, even though the
token's signature still verifies. -/
theorem logout_blacklists_and_refresh_rejects
    (cfg : Config) (cache : Cache) (db : Db) (now : Int) (newJti : String)
    (t : Token) (p : JwtPayload)
    (hconn : cache.connected = true)
    (hv : verify t cfg.refreshSecret = .ok p) :
    logout cfg cache t
      = .ok (CacheService.set cache (blacklistKey p) ("true") (some 604800))
    ∧ CacheService.existsKey
        (CacheService.set cache (blacklistKey p) ("true") (some 604800))
        (blacklistKey p) = true
    ∧ refreshTokenOp cfg
        (CacheService.set cache (blacklistKey p) ("true") (some 604800))
        db now newJti t
      = .error (.app 401 ("Token revoked"))
    ∧ verify t cfg.refreshSecret = .ok p := by
  have hset := existsKey_set_self cache (blacklistKey p) ("true") (some 604800) hconn
  refine ⟨?_, hset, ?_, hv⟩
  · simp [logout, hv]
  · simp [refreshTokenOp, hv, hset]

/-- The refresh token of the C1 witness instance. -/
def c1wTok : Token := sign ⟨"u1", "USER", some ("j1")⟩ ("refresh-secret") 604800000

theorem logout_blacklists_and_refresh_rejects_witness :
    emptyCache.connected = true
    ∧ verify c1wTok defaultCfg.refreshSecret = .ok ⟨"u1", "USER", some ("j1")⟩
    ∧ (logout defaultCfg emptyCache c1wTok
         = .ok (CacheService.set emptyCache
             (blacklistKey ⟨"u1", "USER", some ("j1")⟩) ("true") (some 604800))
       ∧ CacheService.existsKey
           (CacheService.set emptyCache
             (blacklistKey ⟨"u1", "USER", some ("j1")⟩) ("true") (some 604800))
           (blacklistKey ⟨"u1", "USER", some ("j1")⟩) = true
       ∧ refreshTokenOp defaultCfg
           (CacheService.set emptyCache
             (blacklistKey ⟨"u1", "USER", some ("j1")⟩) ("true") (some 604800))
           emptyDb 0 ("j2") c1wTok
         = .error (.app 401 ("Token revoked"))
       ∧ verify c1wTok defaultCfg.refreshSecret = .ok ⟨"u1", "USER", some ("j1")⟩) :=
  ⟨rfl, by decide,
   logout_blacklists_and_refresh_rejects defaultCfg emptyCache emptyDb 0 ("j2") c1wTok
     ⟨"u1", "USER", some ("j1")⟩ rfl (by decide)⟩

/-- C6 (confirmed, part_001 generateTokens): when both configured expiry
strings parse (a and r milliseconds) and the two secrets are distinct,
generateTokens returns an access token signed with the access secret whose
payload carries exactly userId and role (no jti), and a refresh token signed
with the refresh secret whose payload carries exactly userId, role and jti,
each with its expiry value, and persists a RefreshToken row holding the
refresh token string, the owner id and the computed expiry instant; the two
tokens are signed with different keys. (The service copy at
src/services/auth.service.js also places jti in the access payload.) -/
theorem generateTokens_shape
    (cfg : Config) (db : Db) (now : Int) (jti userId role : String) (a r : Nat)
    (ha : parseExpiration cfg.jwtExpiresIn = .ok a)
    (hr : parseExpiration cfg.refreshTokenExpiry = .ok r)
    (hsec : cfg.accessSecret ≠ cfg.refreshSecret) :
    generateTokens cfg db now jti userId role
      = .ok ((sign ⟨userId, role, none⟩ cfg.accessSecret a,
              sign ⟨userId, role, some jti⟩ cfg.refreshSecret r),
             { db with refreshTokens :=
                 ⟨sign ⟨userId, role, some jti⟩ cfg.refreshSecret r, userId, now + (r : Int)⟩
                   :: db.refreshTokens })
    ∧ (sign ⟨userId, role, none⟩ cfg.accessSecret a).secret
        ≠ (sign ⟨userId, role, some jti⟩ cfg.refreshSecret r).secret := by
  constructor
  · unfold generateTokens
    simp only [ha, hr]
  · simpa [sign] using hsec

theorem generateTokens_shape_witness :
    (parseExpiration defaultCfg.jwtExpiresIn = .ok 3600000
      ∧ parseExpiration defaultCfg.refreshTokenExpiry = .ok 604800000
      ∧ defaultCfg.accessSecret ≠ defaultCfg.refreshSecret)
    ∧ (generateTokens defaultCfg emptyDb 0 ("j") ("u1") ("USER")
        = .ok ((sign ⟨"u1", "USER", none⟩ defaultCfg.accessSecret 3600000,
                sign ⟨"u1", "USER", some ("j")⟩ defaultCfg.refreshSecret 604800000),
               { emptyDb with refreshTokens :=
                   [⟨sign ⟨"u1", "USER", some ("j")⟩ defaultCfg.refreshSecret 604800000,
                     "u1", (0 : Int) + (604800000 : Nat)⟩] })
      ∧ (sign ⟨"u1", "USER", none⟩ defaultCfg.accessSecret 3600000).secret
          ≠ (sign ⟨"u1", "USER", some ("j")⟩ defaultCfg.refreshSecret 604800000).secret) :=
  ⟨⟨by decide, by decide, by decide⟩,
   generateTokens_shape defaultCfg emptyDb 0 ("j") ("u1") ("USER") 3600000 604800000
     (by decide) (by decide) (by decide)⟩

/-- C7 (confirmed): the controller response to forgotPassword is the same
generic 200 success for a registered and an unregistered email; for the
unregistered email no record is mutated and no message is sent, while for
the registered one the account stores the sha256 of the raw token with a
15-minute expiry and a message carrying the raw token is dispatched. -/
theorem forgotPassword_no_enumeration
    (H : Hashers) (db : Db) (now : Int) (raw emailReg emailUnreg : String) (u : User)
    (hreg : findUserByEmail db emailReg = some u)
    (hfind : findUserById db u.id = some u)
    (hunreg : findUserByEmail db emailUnreg = none) :
    (forgotPasswordController H db now raw emailReg).1
      = (forgotPasswordController H db now raw emailUnreg).1
    ∧ (forgotPasswordController H db now raw emailUnreg).2.1 = db
    ∧ (forgotPasswordController H db now raw emailUnreg).2.2 = none
    ∧ findUserById (forgotPasswordController H db now raw emailReg).2.1 u.id
        = some { u with resetPasswordToken := some (H.sha256 raw),
                        resetPasswordExpire := some (now + 15 * 60 * 1000) }
    ∧ (forgotPasswordController H db now raw emailReg).2.2 = some ⟨emailReg, raw⟩ := by
  refine ⟨rfl, ?_, ?_, ?_, ?_⟩
  · simp [forgotPasswordController, forgotPassword, hunreg]
  · simp [forgotPasswordController, forgotPassword, hunreg]
  · have hupd := findUserById_updateUser db u.id
      (fun v => { v with resetPasswordToken := some (H.sha256 raw),
                         resetPasswordExpire := some (now + 15 * 60 * 1000) })
      u (fun _ => rfl) hfind
    simp only [forgotPasswordController, forgotPassword, hreg]
    exact hupd
  · simp [forgotPasswordController, forgotPassword, hreg]

/-- The single-account store of the C7 witness. -/
def c7wDb : Db := ⟨[baseUser], []⟩

theorem forgotPassword_no_enumeration_witness :
    (findUserByEmail c7wDb ("a@x.com") = some baseUser
      ∧ findUserById c7wDb baseUser.id = some baseUser
      ∧ findUserByEmail c7wDb ("nobody@x.com") = none)
    ∧ ((forgotPasswordController testHashers c7wDb 0 ("tok") ("a@x.com")).1
        = (forgotPasswordController testHashers c7wDb 0 ("tok") ("nobody@x.com")).1
      ∧ (forgotPasswordController testHashers c7wDb 0 ("tok") ("nobody@x.com")).2.1 = c7wDb
      ∧ (forgotPasswordController testHashers c7wDb 0 ("tok") ("nobody@x.com")).2.2 = none
      ∧ findUserById (forgotPasswordController testHashers c7wDb 0 ("tok") ("a@x.com")).2.1 baseUser.id
          = some { baseUser with
              resetPasswordToken := some (testHashers.sha256 ("tok")),
              resetPasswordExpire := some ((0 : Int) + 15 * 60 * 1000) }
      ∧ (forgotPasswordController testHashers c7wDb 0 ("tok") ("a@x.com")).2.2
          = some ⟨"a@x.com", "tok"⟩) :=
  ⟨⟨by decide, by decide, by decide⟩,
   forgotPassword_no_enumeration testHashers c7wDb 0 ("tok") ("a@x.com") ("nobody@x.com")
     baseUser (by decide) (by decide) (by decide)⟩

/-- C8 counterexample: with JWT_EXPIRES_IN set to the malformed string 1x,
module initialisation (the only code that runs at startup) succeeds — no
fatal configuration error — and the Invalid expiration format error is
instead thrown inside generateTokens, i.e. on each token-issuing request. -/
theorem malformed_expiry_not_startup_fatal_cex :
    moduleInit badEnv = .ok badCfg
    ∧ generateTokens badCfg emptyDb 0 ("j") ("u1") ("USER")
        = .error (.internal ("Invalid expiration format: 1x")) := by decide
